import Mathlib

/-!
Shallow embedding of the news-aggregation service
(`src/services/newsService.js`) of the Mini-news repository, together with
proofs of the specification claims about it.

Modelling conventions:
* JS strings are Lean `String`s; `String.prototype.includes` is substring
  (infix) containment on the underlying character lists.
* Timestamps (`publishedAt`, `created_at`, the current moment) are integers
  (epoch milliseconds for articles, epoch seconds for cache rows); the
  source's ISO-8601 strings and `moment` arithmetic are modelled by integer
  arithmetic.  `moment().diff(t, 'hours')` truncates toward zero, which is
  `Int.tdiv`.
* The upstream news API (`axios.get` in `fetchNewsFromAPI`) is a parameter
  `up : Upstream`; `up q ps = none` models any failure (timeout, non-2xx,
  network error) and `up q ps = some l` models a successful response whose
  `data.articles || []` is `l`.
* Each fetching function additionally returns the list of
  `(query, pageSize)` pairs it sent upstream, so that the number of
  outbound calls is part of the model.
* `uuidv4()` produces an opaque random identifier that no claim depends
  on; it is modelled by the placeholder `""`.
-/

namespace MiniNews

/-- JS `x || d` on a possibly-absent string: `null`/`undefined` and the
empty string are falsy. -/
def jsOr (x : Option String) (d : String) : String :=
  match x with
  | none => d
  | some s => if s = "" then d else s

/-- JS `haystack.includes(needle)`: substring containment. -/
def includes (haystack needle : String) : Bool :=
  decide (needle.data <:+: haystack.data)

/-- JS `s.toLowerCase()` (character-wise lowering). -/
def lowerStr (s : String) : String := ⟨s.data.map Char.toLower⟩

/-- Character class `[#\w]` of the entity-stripping regex `&[#\w]+;`
(`\w` is ASCII `[A-Za-z0-9_]`). -/
def isEntityChar (c : Char) : Bool := c.isAlphanum || c = '#' || c = '_'

/-- Whitespace removed by JS `String.prototype.trim` (ASCII whitespace,
NBSP, BOM and the Unicode space separators). -/
def isJsSpace (c : Char) : Bool :=
  c = ' ' || c = '\t' || c = '\n' || c = '\r' || c = '\x0b' || c = '\x0c' ||
  c.toNat = 0xA0 || c.toNat = 0xFEFF || c.toNat = 0x1680 ||
  c.toNat = 0x2028 || c.toNat = 0x2029 || c.toNat = 0x202F ||
  c.toNat = 0x205F || c.toNat = 0x3000 ||
  (0x2000 ≤ c.toNat && c.toNat ≤ 0x200A)

/-- One left-to-right pass of `text.replace(/<[^>]*>/g, '')`.
`none` - scanning outside a candidate tag; `some pending` - a `'<'` has been
seen and `pending` (reversed) holds the non-`'>'` characters read since: if a
`'>'` arrives the whole candidate is dropped, and if the input ends first the
`'<'` and the pending characters are emitted unchanged (the regex finds no
match there). -/
def stripTagsAux : Option (List Char) → List Char → List Char
  | none, [] => []
  | some pending, [] => '<' :: pending.reverse
  | none, c :: rest =>
    if c = '<' then stripTagsAux (some []) rest
    else c :: stripTagsAux none rest
  | some pending, c :: rest =>
    if c = '>' then stripTagsAux none rest
    else stripTagsAux (some (c :: pending)) rest

/-- `text.replace(/<[^>]*>/g, '')`. -/
def stripTags (l : List Char) : List Char := stripTagsAux none l

/-- One left-to-right pass of `text.replace(/&[#\w]+;/g, '')`.
`none` - scanning; `some pending` - a `'&'` has been seen and `pending`
(reversed) holds the `[#\w]` characters read since.  A following `';'` after
at least one class character completes a match (dropped); any other
character, or the end of the input, means no match started at that `'&'`,
so the `'&'` and the pending characters are emitted unchanged and scanning
resumes at the current character. -/
def stripEntitiesAux : Option (List Char) → List Char → List Char
  | none, [] => []
  | some pending, [] => '&' :: pending.reverse
  | none, c :: rest =>
    if c = '&' then stripEntitiesAux (some []) rest
    else c :: stripEntitiesAux none rest
  | some pending, c :: rest =>
    if isEntityChar c then stripEntitiesAux (some (c :: pending)) rest
    else if c = ';' && !pending.isEmpty then stripEntitiesAux none rest
    else
      '&' :: pending.reverse ++
        (if c = '&' then stripEntitiesAux (some []) rest
         else c :: stripEntitiesAux none rest)

/-- `text.replace(/&[#\w]+;/g, '')`. -/
def stripEntities (l : List Char) : List Char := stripEntitiesAux none l

/-- JS `text.trim()`. -/
def trimChars (l : List Char) : List Char :=
  ((l.dropWhile isJsSpace).reverse.dropWhile isJsSpace).reverse

/-- `sanitizeText` (newsService.js:180-184):
`if (!text) return '';` then
`text.replace(/<[^>]*>/g, '').replace(/&[#\w]+;/g, '').trim()`. -/
def sanitizeText (text : String) : String :=
  if text = "" then ""
  else ⟨trimChars (stripEntities (stripTags text.data))⟩

/-- `true` iff the list contains a `'<'` with a `'>'` somewhere after it,
i.e. a substring matching `<[^>]*>` exists. -/
def hasTagPair (l : List Char) : Bool :=
  (l.dropWhile (fun c => !(c == '<'))).contains '>'

/-- Raw article shape returned by the upstream news API
(`{title, description, url, urlToImage, publishedAt, source:{name,url}}`);
optional fields model `null`/`undefined`. -/
structure RawArticle where
  title : Option String
  description : Option String
  url : String
  urlToImage : String
  publishedAt : Int
  sourceName : Option String
  sourceUrl : Option String
deriving DecidableEq, Inhabited

/-- `getMockNewsData` (newsService.js:52-81): the three synthetic placeholder
articles substituted when the upstream fetch fails.  `now` is the current
time in epoch milliseconds (`new Date()` / `moment()`). -/
def getMockNewsData (now : Int) (query : String) : List RawArticle :=
  [ { title := some ("Breaking: Major " ++ query ++ " Development Announced"),
      description := some ("Important news in the " ++ query ++
        " sector affecting business operations and market trends."),
      url := "https://example.com/news/1",
      urlToImage := "https://via.placeholder.com/400x200?text=News+Image",
      publishedAt := now,
      sourceName := some "Business Times",
      sourceUrl := none },
    { title := some (query ++ " Market Shows Strong Growth This Quarter"),
      description := some ("Analysis of recent " ++ query ++
        " market performance and future outlook for investors."),
      url := "https://example.com/news/2",
      urlToImage := "https://via.placeholder.com/400x200?text=Market+News",
      publishedAt := now - 3600000,
      sourceName := some "Economic Daily",
      sourceUrl := none },
    { title := some ("Innovation in " ++ query ++
        ": What Business Leaders Need to Know"),
      description := some ("Expert insights on emerging trends in " ++ query ++
        " and their impact on business strategy."),
      url := "https://example.com/news/3",
      urlToImage := "https://via.placeholder.com/400x200?text=Innovation+News",
      publishedAt := now - 7200000,
      sourceName := some "Industry Weekly",
      sourceUrl := none } ]

/-- The upstream news API: for a `(query, pageSize)` request, `none` is any
failure and `some l` is a successful response with article list `l`. -/
abbrev Upstream := String → Nat → Option (List RawArticle)

/-- `fetchNewsFromAPI` (newsService.js:30-50).  Returns the articles
(the upstream response, or the mock placeholders if the request failed)
paired with the single `(query, pageSize)` outbound call it made. -/
def fetchNewsFromAPI (up : Upstream) (now : Int) (query : String)
    (pageSize : Nat := 20) : List RawArticle × List (String × Nat) :=
  (match up query pageSize with
   | some articles => articles
   | none => getMockNewsData now query,
   [(query, pageSize)])

/-- `CAREER_INDUSTRIES` (newsService.js:11-22). -/
def CAREER_INDUSTRIES (careerField : String) : Option (List String) :=
  if careerField = "technology" then
    some ["technology", "startups", "artificial intelligence", "cybersecurity"]
  else if careerField = "finance" then
    some ["finance", "banking", "cryptocurrency", "fintech", "stock market"]
  else if careerField = "healthcare" then
    some ["healthcare", "medical", "pharmaceutical", "biotech"]
  else if careerField = "real_estate" then
    some ["real estate", "property", "construction", "housing market"]
  else if careerField = "retail" then
    some ["retail", "e-commerce", "consumer goods", "fashion"]
  else if careerField = "energy" then
    some ["energy", "oil", "renewable energy", "utilities"]
  else if careerField = "manufacturing" then
    some ["manufacturing", "automotive", "aerospace", "industrial"]
  else if careerField = "consulting" then
    some ["consulting", "business services", "management"]
  else if careerField = "legal" then
    some ["legal", "law", "compliance", "regulatory"]
  else if careerField = "marketing" then
    some ["marketing", "advertising", "digital marketing", "social media"]
  else none

/-- Processed article produced by the engine. -/
structure Article where
  id : String
  title : String
  description : String
  url : String
  image_url : String
  published_at : Int
  source_name : String
  source_url : String
  category : String
  location_type : Option String
  location_value : Option String
  industry : Option String
  relevance_score : Nat
deriving DecidableEq, Inhabited

/-- `getLocationType` (newsService.js:186-190). -/
def getLocationType (query : String) : String :=
  if includes query "business" then "local"
  else if includes query "economy" then "regional"
  else "national"

/-- `getLocationValue` (newsService.js:192-196). -/
def getLocationValue (query city state country : String) : String :=
  if includes query city then city
  else if includes query state then state
  else country

/-- The trusted-source allow-list of `calculateRelevanceScore`. -/
def trustedSources : List String :=
  ["Reuters", "Bloomberg", "Wall Street Journal", "Financial Times"]

/-- `calculateRelevanceScore` (newsService.js:198-221).  `now` is the
current time in epoch milliseconds; `moment().diff(publishedAt, 'hours')`
truncates toward zero. -/
def calculateRelevanceScore (now : Int) (article : RawArticle)
    (keyword : String) : Nat :=
  let title := lowerStr (jsOr article.title "")
  let description := lowerStr (jsOr article.description "")
  let searchTerm := lowerStr keyword
  let hoursAgo := (now - article.publishedAt).tdiv 3600000
  min ((if includes title searchTerm then 3 else 0) +
       (if includes description searchTerm then 2 else 0) +
       (if hoursAgo < 6 then 2 else if hoursAgo < 24 then 1 else 0) +
       (if trustedSources.any
            (fun s => includes (jsOr article.sourceName "") s) then 2 else 0))
      10

/-- The relevance score as the specification words it: the sum of a +3
title bonus, +2 description bonus, +2/+1/+0 recency bonus and +2
trusted-source bonus, capped at 10. -/
def specRelevanceScore (now : Int) (article : RawArticle)
    (keyword : String) : Nat :=
  let titleBonus :=
    if includes (lowerStr (jsOr article.title "")) (lowerStr keyword)
    then 3 else 0
  let descriptionBonus :=
    if includes (lowerStr (jsOr article.description "")) (lowerStr keyword)
    then 2 else 0
  let hoursAgo := (now - article.publishedAt).tdiv 3600000
  let recencyBonus := if hoursAgo < 6 then 2 else if hoursAgo < 24 then 1 else 0
  let sourceBonus :=
    if trustedSources.any (fun s => includes (jsOr article.sourceName "") s)
    then 2 else 0
  min (titleBonus + descriptionBonus + recencyBonus + sourceBonus) 10

/-- The per-article mapping in `getLocationBasedNews` (newsService.js:94-107). -/
def processLocationArticle (now : Int) (city state country query : String)
    (a : RawArticle) : Article :=
  { id := "",
    title := sanitizeText (jsOr a.title ""),
    description := sanitizeText (jsOr a.description ""),
    url := a.url,
    image_url := a.urlToImage,
    published_at := a.publishedAt,
    source_name := jsOr a.sourceName "Unknown",
    source_url := jsOr a.sourceUrl "",
    category := "business",
    location_type := some (getLocationType query),
    location_value := some (getLocationValue query city state country),
    industry := none,
    relevance_score := calculateRelevanceScore now a query }

/-- The per-article mapping in `getIndustryNews` (newsService.js:121-133). -/
def processIndustryArticle (now : Int) (industry : String)
    (a : RawArticle) : Article :=
  { id := "",
    title := sanitizeText (jsOr a.title ""),
    description := sanitizeText (jsOr a.description ""),
    url := a.url,
    image_url := a.urlToImage,
    published_at := a.publishedAt,
    source_name := jsOr a.sourceName "Unknown",
    source_url := jsOr a.sourceUrl "",
    category := "industry",
    location_type := none,
    location_value := none,
    industry := some industry,
    relevance_score := calculateRelevanceScore now a industry }

/-- The per-article mapping of the global branch of `getPersonalizedNews`
(newsService.js:153-165). -/
def processGlobalArticle (now : Int) (a : RawArticle) : Article :=
  { id := "",
    title := sanitizeText (jsOr a.title ""),
    description := sanitizeText (jsOr a.description ""),
    url := a.url,
    image_url := a.urlToImage,
    published_at := a.publishedAt,
    source_name := jsOr a.sourceName "Unknown",
    source_url := jsOr a.sourceUrl "",
    category := "global",
    location_type := some "global",
    location_value := none,
    industry := none,
    relevance_score := calculateRelevanceScore now a "business" }

/-- `getLocationBasedNews` (newsService.js:83-113): result articles
(truncated to `limit * 3`) paired with the outbound calls made. -/
def getLocationBasedNews (up : Upstream) (now : Int)
    (city state country : String) (limit : Nat := 5) :
    List Article × List (String × Nat) :=
  let queries := [city ++ " business", state ++ " economy",
                  country ++ " business news"]
  let results := queries.map (fun query =>
    let fr := fetchNewsFromAPI up now query limit
    (fr.1.map (processLocationArticle now city state country query), fr.2))
  (((results.map Prod.fst).flatten).take (limit * 3),
   (results.map Prod.snd).flatten)

/-- `getIndustryNews` (newsService.js:115-139): result articles (truncated
to `limit`) paired with the outbound calls made; at most the first two
industries of the career field are queried. -/
def getIndustryNews (up : Upstream) (now : Int) (careerField : String)
    (limit : Nat := 5) : List Article × List (String × Nat) :=
  let industries := (CAREER_INDUSTRIES careerField).getD [careerField]
  let results := (industries.take 2).map (fun industry =>
    let fr := fetchNewsFromAPI up now (industry ++ " business news") limit
    (fr.1.map (processIndustryArticle now industry), fr.2))
  (((results.map Prod.fst).flatten).take limit,
   (results.map Prod.snd).flatten)

/-- The profile fields `getPersonalizedNews` destructures. -/
structure UserProfile where
  city : String
  state : String
  country : String
  career_field : String

/-- The five-bucket result object of `getPersonalizedNews`; by construction
it has exactly the keys local, regional, national, industry, global. -/
structure PersonalizedNews where
  «local» : List Article
  regional : List Article
  national : List Article
  industry : List Article
  global : List Article

/-- `getPersonalizedNews` (newsService.js:141-178): the five-bucket result
paired with all outbound calls made. -/
def getPersonalizedNews (up : Upstream) (now : Int) (profile : UserProfile) :
    PersonalizedNews × List (String × Nat) :=
  let locationR :=
    getLocationBasedNews up now profile.city profile.state profile.country 5
  let industryR := getIndustryNews up now profile.career_field 5
  let globalR := fetchNewsFromAPI up now "global business economy" 5
  let processedGlobalNews := globalR.1.map (processGlobalArticle now)
  ({ «local» :=
       (locationR.1.filter (fun n => n.location_type == some "local")).take 5,
     regional :=
       (locationR.1.filter (fun n => n.location_type == some "regional")).take 5,
     national :=
       (locationR.1.filter (fun n => n.location_type == some "national")).take 5,
     industry := industryR.1.take 5,
     global := processedGlobalNews.take 5 },
   locationR.2 ++ industryR.2 ++ globalR.2)

/-- A row of the `news_articles` cache table: `created_at` in epoch seconds
(`DATETIME` strings of the form YYYY-MM-DD HH:mm:ss compare in the same
order as their timestamps), plus an opaque payload standing for the other
columns. -/
structure CacheRow where
  id : String
  created_at : Int
deriving DecidableEq

/-- `refreshNewsCache` (newsService.js:223-235):
`DELETE FROM news_articles WHERE created_at < ?` with
`? = moment().subtract(6, 'hours')`; `now` in epoch seconds. -/
def refreshNewsCache (now : Int) (cache : List CacheRow) : List CacheRow :=
  let sixHoursAgo := now - 6 * 3600
  cache.filter (fun r => !(decide (r.created_at < sixHoursAgo)))

/-- A minimal raw article used to instantiate witnesses on concrete inputs. -/
def sampleRaw : RawArticle :=
  { title := none, description := none, url := "", urlToImage := "",
    publishedAt := 0, sourceName := none, sourceUrl := none }

/-! ### Helper lemmas -/

/-- A list without `'>'` contains no `<...>` pattern. -/
lemma no_pair_of_gt_not_mem {l : List Char} (h : '>' ∉ l) :
    ¬ List.Sublist ['<', '>'] l :=
  fun hsub => h (List.Sublist.mem (by simp) hsub)

/-- Consing anything onto a list without `'>'` yields no `<...>` pattern. -/
lemma no_pair_cons_of_gt_not_mem {l : List Char} (h : '>' ∉ l) (c : Char) :
    ¬ List.Sublist ['<', '>'] (c :: l) := by
  intro hsub
  rcases List.sublist_cons_iff.mp hsub with h1 | ⟨r, hr, hrsub⟩
  · exact no_pair_of_gt_not_mem h h1
  · have : r = ['>'] := by injection hr with _ h2; exact h2.symm
    subst this
    exact h (List.singleton_sublist.mp hrsub)

/-- Consing a non-`'<'` character preserves the absence of `<...>` patterns. -/
lemma no_pair_cons {l : List Char} {c : Char} (hc : c ≠ '<')
    (h : ¬ List.Sublist ['<', '>'] l) : ¬ List.Sublist ['<', '>'] (c :: l) := by
  intro hsub
  rcases List.sublist_cons_iff.mp hsub with h1 | ⟨r, hr, _⟩
  · exact h h1
  · exact hc (by injection hr with h2 _; exact h2.symm)

/-- Tag stripping leaves no `'<'` that is later followed by a `'>'`. -/
lemma stripTagsAux_no_pair (l : List Char) :
    ∀ mode : Option (List Char), (∀ p, mode = some p → '>' ∉ p) →
      ¬ List.Sublist ['<', '>'] (stripTagsAux mode l) := by
  induction l with
  | nil =>
    intro mode hmode
    cases mode with
    | none => simp [stripTagsAux]
    | some p =>
      simp only [stripTagsAux]
      have hp : '>' ∉ p.reverse := by
        simpa using hmode p rfl
      exact no_pair_cons_of_gt_not_mem hp '<'
  | cons c rest ih =>
    intro mode hmode
    cases mode with
    | none =>
      simp only [stripTagsAux]
      by_cases hc : c = '<'
      · simp only [hc, if_pos rfl]
        exact ih (some []) (by simp)
      · simp only [if_neg hc]
        exact no_pair_cons hc (ih none (by simp))
    | some p =>
      have hp : '>' ∉ p := hmode p rfl
      simp only [stripTagsAux]
      by_cases hc : c = '>'
      · simp only [hc, if_pos rfl]
        exact ih none (by simp)
      · simp only [if_neg hc]
        refine ih (some (c :: p)) ?_
        intro q hq
        injection hq with hq
        subst hq
        simp only [List.mem_cons, not_or]
        exact ⟨fun h => hc h.symm, hp⟩

/-- Entity stripping only deletes characters (up to the pending prefix). -/
lemma stripEntitiesAux_sublist (l : List Char) :
    ∀ mode : Option (List Char),
      List.Sublist (stripEntitiesAux mode l)
        ((match mode with
          | none => ([] : List Char)
          | some p => '&' :: p.reverse) ++ l) := by
  induction l with
  | nil =>
    intro mode
    cases mode with
    | none => simp [stripEntitiesAux]
    | some p => simp [stripEntitiesAux]
  | cons c rest ih =>
    intro mode
    cases mode with
    | none =>
      simp only [stripEntitiesAux, List.nil_append]
      by_cases hc : c = '&'
      · simp only [hc, if_pos rfl]
        simpa using ih (some [])
      · simp only [if_neg hc]
        exact List.Sublist.cons₂ c (by simpa using ih none)
    | some p =>
      simp only [stripEntitiesAux]
      by_cases h1 : isEntityChar c = true
      · simp only [if_pos h1]
        have := ih (some (c :: p))
        simpa [List.append_assoc] using this
      · simp only [Bool.if_false_left, if_neg h1]
        by_cases h2 : (c = ';' && !p.isEmpty) = true
        · simp only [if_pos h2]
          have hc : c = ';' := by
            have h2' := h2
            simp only [Bool.and_eq_true, decide_eq_true_eq] at h2'
            exact h2'.1
          subst hc
          have := (ih none).trans (List.sublist_cons_self ';' rest)
          simp only [List.nil_append] at this
          exact this.trans (List.sublist_append_right ('&' :: p.reverse) _)
        · simp only [if_neg h2]
          by_cases hc : c = '&'
          · simp only [hc, if_pos rfl]
            have h3 : List.Sublist (stripEntitiesAux (some []) rest) ('&' :: rest) := by
              simpa using ih (some [])
            have h4 := h3.append_left ('&' :: p.reverse)
            simpa [hc] using h4
          · simp only [if_neg hc]
            have h3 : List.Sublist (c :: stripEntitiesAux none rest) (c :: rest) :=
              List.Sublist.cons₂ c (by simpa using ih none)
            have h4 := h3.append_left ('&' :: p.reverse)
            simpa using h4

lemma stripEntities_sublist (l : List Char) : List.Sublist (stripEntities l) l := by
  simpa [stripEntities] using stripEntitiesAux_sublist l none

lemma trimChars_sublist (l : List Char) : List.Sublist (trimChars l) l := by
  unfold trimChars
  have h1 : List.Sublist (l.dropWhile isJsSpace) l := List.dropWhile_sublist _
  have h2 : List.Sublist ((l.dropWhile isJsSpace).reverse.dropWhile isJsSpace)
      (l.dropWhile isJsSpace).reverse := List.dropWhile_sublist _
  have h3 := h2.reverse
  rw [List.reverse_reverse] at h3
  exact h3.trans h1

/-- A set `hasTagPair` flag exhibits `['<', '>']` as a sublist. -/
lemma pair_sublist_of_hasTagPair :
    ∀ {l : List Char}, hasTagPair l = true → List.Sublist ['<', '>'] l := by
  intro l
  induction l with
  | nil => simp [hasTagPair]
  | cons c rest ih =>
    intro h
    by_cases hc : c = '<'
    · subst hc
      have hmem : '>' ∈ '<' :: rest := by
        simpa [hasTagPair, List.dropWhile] using h
      have : '>' ∈ rest := by
        rcases List.mem_cons.mp hmem with h1 | h1
        · exact absurd h1 (by decide)
        · exact h1
      exact List.Sublist.cons₂ '<' (List.singleton_sublist.mpr this)
    · have hb : (c == '<') = false := by
        simpa using hc
      have h' : hasTagPair rest = true := by
        simpa [hasTagPair, List.dropWhile, hb] using h
      exact (ih h').trans (List.sublist_cons_self c rest)

lemma hasTagPair_eq_false {l : List Char} (h : ¬ List.Sublist ['<', '>'] l) :
    hasTagPair l = false := by
  cases heq : hasTagPair l with
  | false => rfl
  | true => exact absurd (pair_sublist_of_hasTagPair heq) h

/-- JS `includes` holds when the needle sits between two other pieces. -/
lemma includes_append_mid (s₁ s₂ s₃ : String) :
    includes (s₁ ++ s₂ ++ s₃) s₂ = true := by
  apply decide_eq_true
  rw [String.data_append, String.data_append]
  exact List.infix_append s₁.data s₂.data s₃.data

/-- JS `includes` holds for a prefix. -/
lemma includes_append_left (s₁ s₂ : String) :
    includes (s₁ ++ s₂) s₁ = true := by
  apply decide_eq_true
  simpa [String.data_append] using
    (List.prefix_append s₁.data s₂.data).isInfix

/-- Flattening a list of singletons gives back the original length. -/
lemma length_flatten_map_singleton {α β : Type} (f : α → β) (l : List α) :
    ((l.map (fun x => [f x])).flatten).length = l.length := by
  induction l with
  | nil => simp
  | cons x xs ih => simp [ih]

/-- `getLocationType` only ever returns one of the three location labels. -/
lemma getLocationType_mem (query : String) :
    getLocationType query = "local" ∨ getLocationType query = "regional" ∨
      getLocationType query = "national" := by
  unfold getLocationType
  by_cases h1 : includes query "business" = true
  · simp [h1]
  · by_cases h2 : includes query "economy" = true
    · simp [h1, h2]
    · simp [h1, h2]

/-- Flattening a list of singleton lists undoes the wrapping. -/
lemma flatten_map_singleton {α β : Type} (f : α → β) (l : List α) :
    (l.map (fun x => [f x])).flatten = l.map f := by
  induction l with
  | nil => rfl
  | cons x xs ih => simp [ih]

/-- The outbound calls of `getLocationBasedNews` are its three fixed
queries, each with page size `limit`. -/
lemma getLocationBasedNews_log (up : Upstream) (now : Int)
    (city state country : String) (limit : Nat) :
    (getLocationBasedNews up now city state country limit).2 =
      [(city ++ " business", limit), (state ++ " economy", limit),
       (country ++ " business news", limit)] := rfl

/-- The outbound calls of `getIndustryNews` are one query per selected
industry (at most the first two), each with page size `limit`. -/
lemma getIndustryNews_log (up : Upstream) (now : Int) (cf : String)
    (limit : Nat) :
    (getIndustryNews up now cf limit).2 =
      (((CAREER_INDUSTRIES cf).getD [cf]).take 2).map
        (fun i => (i ++ " business news", limit)) := by
  show (((((CAREER_INDUSTRIES cf).getD [cf]).take 2).map (fun industry =>
      ((fetchNewsFromAPI up now (industry ++ " business news") limit).1.map
          (processIndustryArticle now industry),
        [(industry ++ " business news", limit)]))).map Prod.snd).flatten = _
  generalize (((CAREER_INDUSTRIES cf).getD [cf]).take 2) = sel
  induction sel with
  | nil => rfl
  | cons x xs ih => simpa using ih

/-! ### Claim theorems -/

/-- C1: for every user profile and every upstream behaviour (success,
failure, or any mix), `getPersonalizedNews` returns an object with exactly
the five keys local, regional, national, industry, global (the
`PersonalizedNews` structure has exactly these fields), each bucket an
array of at most 5 articles. -/
theorem getPersonalizedNews_buckets_at_most_five (up : Upstream) (now : Int)
    (p : UserProfile) :
    (getPersonalizedNews up now p).1.«local».length ≤ 5 ∧
    (getPersonalizedNews up now p).1.regional.length ≤ 5 ∧
    (getPersonalizedNews up now p).1.national.length ≤ 5 ∧
    (getPersonalizedNews up now p).1.industry.length ≤ 5 ∧
    (getPersonalizedNews up now p).1.global.length ≤ 5 :=
  ⟨List.length_take_le 5 _, List.length_take_le 5 _, List.length_take_le 5 _,
   List.length_take_le 5 _, List.length_take_le 5 _⟩

/-- C2: whenever the upstream fetch fails, `fetchNewsFromAPI` does not
propagate the failure: it returns a non-empty list of placeholder articles
whose titles all contain the query term. -/
theorem fetchNewsFromAPI_fallback_placeholders (up : Upstream) (now : Int)
    (q : String) (ps : Nat) (hfail : up q ps = none) :
    0 < (fetchNewsFromAPI up now q ps).1.length ∧
    ∀ a ∈ (fetchNewsFromAPI up now q ps).1,
      ∃ t, a.title = some t ∧ includes t q = true := by
  constructor
  · simp [fetchNewsFromAPI, hfail, getMockNewsData]
  · intro a ha
    simp only [fetchNewsFromAPI, hfail] at ha
    simp only [getMockNewsData, List.mem_cons, List.not_mem_nil, or_false] at ha
    rcases ha with rfl | rfl | rfl
    · exact ⟨_, rfl,
        includes_append_mid "Breaking: Major " q " Development Announced"⟩
    · exact ⟨_, rfl,
        includes_append_left q " Market Shows Strong Growth This Quarter"⟩
    · exact ⟨_, rfl,
        includes_append_mid "Innovation in " q
          ": What Business Leaders Need to Know"⟩

/-- Witness for C2 at the concrete query "tech" with a failing upstream. -/
theorem fetchNewsFromAPI_fallback_placeholders_witness :
    0 < (fetchNewsFromAPI (fun _ _ => none) 0 "tech" 5).1.length ∧
    ∀ a ∈ (fetchNewsFromAPI (fun _ _ => none) 0 "tech" 5).1,
      ∃ t, a.title = some t ∧ includes t "tech" = true :=
  fetchNewsFromAPI_fallback_placeholders (fun _ _ => none) 0 "tech" 5 rfl

/-- C3: `calculateRelevanceScore` always returns an integer in [0, 10],
for any article, keyword and call time. -/
theorem calculateRelevanceScore_range (now : Int) (a : RawArticle)
    (k : String) :
    0 ≤ calculateRelevanceScore now a k ∧
    calculateRelevanceScore now a k ≤ 10 :=
  ⟨Nat.zero_le _, Nat.min_le_right _ _⟩

/-- C4: `calculateRelevanceScore` is the sum of a +3 title-match bonus, a
+2 description-match bonus, a +2 (under 6h) / +1 (under 24h) recency bonus
and a +2 trusted-source bonus, capped at 10; on the spec's scenario
(title "AI boom in tech", empty description, published 1 hour before call
time, source "Bloomberg", keyword "tech") it yields 7. -/
theorem calculateRelevanceScore_matches_spec_formula :
    (∀ (now : Int) (a : RawArticle) (k : String),
      calculateRelevanceScore now a k = specRelevanceScore now a k) ∧
    calculateRelevanceScore 3600000
      { title := some "AI boom in tech", description := some "", url := "",
        urlToImage := "", publishedAt := 0, sourceName := some "Bloomberg",
        sourceUrl := none } "tech" = 7 :=
  ⟨fun _ _ _ => rfl, by decide⟩

/-- C5 counterexample: `sanitizeText` is not idempotent.  Stripping the
entity `&b;` from "&a&b;c;" creates the new entity-shaped substring
"&ac;", which a second application removes. -/
theorem sanitizeText_not_idempotent_counterexample :
    sanitizeText "&a&b;c;" = "&ac;" ∧
    sanitizeText (sanitizeText "&a&b;c;") = "" ∧
    (sanitizeText (sanitizeText "&a&b;c;") == sanitizeText "&a&b;c;") = false := by
  decide

/-- C5 amended: the output of `sanitizeText` never contains a `'<'` that is
later followed by a `'>'`, so in particular never a `'<'` immediately
followed by a tag-like pattern (idempotence, however, fails, see the
counterexample). -/
theorem sanitizeText_output_tag_free (text : String) :
    hasTagPair (sanitizeText text).data = false := by
  by_cases h : text = ""
  · subst h; rfl
  · have hmain : ¬ List.Sublist ['<', '>'] (stripTagsAux none text.data) :=
      stripTagsAux_no_pair text.data none (by simp)
    have hsub : List.Sublist (trimChars (stripEntities (stripTags text.data)))
        (stripTags text.data) :=
      (trimChars_sublist _).trans (stripEntities_sublist _)
    have hout : ¬ List.Sublist ['<', '>']
        (trimChars (stripEntities (stripTags text.data))) :=
      fun hs => hmain (hs.trans hsub)
    have hx : (sanitizeText text).data =
        trimChars (stripEntities (stripTags text.data)) := by
      simp [sanitizeText, h]
    rw [hx]
    exact hasTagPair_eq_false hout

/-- C6: the location label depends only on keywords of the query string:
"business" (checked first) gives "local", otherwise "economy" gives
"regional", otherwise "national"; in particular the fixed country query
"{country} business news" is labelled "local" for every country. -/
theorem getLocationType_keyword_rule :
    (∀ q : String, includes q "business" = true → getLocationType q = "local") ∧
    (∀ q : String, includes q "business" = false → includes q "economy" = true →
      getLocationType q = "regional") ∧
    (∀ q : String, includes q "business" = false → includes q "economy" = false →
      getLocationType q = "national") ∧
    (∀ country : String,
      getLocationType (country ++ " business news") = "local") := by
  refine ⟨?_, ?_, ?_, ?_⟩
  · intro q h
    simp [getLocationType, h]
  · intro q h1 h2
    simp [getLocationType, h1, h2]
  · intro q h1 h2
    simp [getLocationType, h1, h2]
  · intro country
    have h1 : "business".data <:+: " business news".data := by decide
    have h2 : " business news".data <:+: (country ++ " business news").data := by
      refine ⟨country.data, [], ?_⟩
      rw [String.data_append]
      simp
    have h3 : includes (country ++ " business news") "business" = true :=
      decide_eq_true (h1.trans h2)
    simp [getLocationType, h3]

/-- Witness for C6 at concrete query strings. -/
theorem getLocationType_keyword_rule_witness :
    getLocationType "x business" = "local" ∧
    getLocationType "x economy" = "regional" ∧
    getLocationType "x" = "national" ∧
    getLocationType ("CA" ++ " business news") = "local" :=
  ⟨getLocationType_keyword_rule.1 "x business" (by decide),
   getLocationType_keyword_rule.2.1 "x economy" (by decide) (by decide),
   getLocationType_keyword_rule.2.2.1 "x" (by decide) (by decide),
   getLocationType_keyword_rule.2.2.2 "CA"⟩

/-- C7: one `getPersonalizedNews` request issues at most 6 outbound
calls - exactly 3 location queries, at most 2 industry queries (the
industry list is truncated to its first two entries; an unknown career
field falls back to the literal career-field string, giving a single
query), and exactly 1 global query - independent of input size. -/
theorem personalized_outbound_calls_bounded (up : Upstream) (now : Int)
    (p : UserProfile) :
    (getLocationBasedNews up now p.city p.state p.country 5).2.length = 3 ∧
    (getIndustryNews up now p.career_field 5).2.length ≤ 2 ∧
    (fetchNewsFromAPI up now "global business economy" 5).2.length = 1 ∧
    (getPersonalizedNews up now p).2.length ≤ 6 ∧
    (CAREER_INDUSTRIES p.career_field = none →
      (getIndustryNews up now p.career_field 5).2 =
        [(p.career_field ++ " business news", 5)]) := by
  have hloc :
      (getLocationBasedNews up now p.city p.state p.country 5).2.length = 3 := by
    rw [getLocationBasedNews_log]
    rfl
  have hind : (getIndustryNews up now p.career_field 5).2.length ≤ 2 := by
    rw [getIndustryNews_log, List.length_map]
    exact List.length_take_le 2 _
  refine ⟨hloc, hind, rfl, ?_, ?_⟩
  · have hglob :
        (fetchNewsFromAPI up now "global business economy" 5).2.length = 1 := rfl
    have hx : (getPersonalizedNews up now p).2 =
        (getLocationBasedNews up now p.city p.state p.country 5).2 ++
        (getIndustryNews up now p.career_field 5).2 ++
        (fetchNewsFromAPI up now "global business economy" 5).2 := rfl
    rw [hx, List.length_append, List.length_append, hloc, hglob]
    omega
  · intro h
    rw [getIndustryNews_log, h]
    rfl

/-- Witness for C7 at a failing upstream and the unknown career field
"gardening". -/
theorem personalized_outbound_calls_bounded_witness :
    (getPersonalizedNews (fun _ _ => none) 0
      ⟨"Ottawa", "ON", "CA", "gardening"⟩).2.length ≤ 6 ∧
    (getIndustryNews (fun _ _ => none) 0 "gardening" 5).2 =
      [("gardening business news", 5)] :=
  ⟨(personalized_outbound_calls_bounded (fun _ _ => none) 0
      ⟨"Ottawa", "ON", "CA", "gardening"⟩).2.2.2.1,
   (personalized_outbound_calls_bounded (fun _ _ => none) 0
      ⟨"Ottawa", "ON", "CA", "gardening"⟩).2.2.2.2 (by decide)⟩

/-- C8 counterexample: articles produced by `getLocationBasedNews` carry
the category "business", which is not one of the five values local,
regional, national, industry, global. -/
theorem location_article_category_counterexample :
    ((getLocationBasedNews (fun _ _ => some [sampleRaw]) 0 "Ottawa" "ON" "CA"
        5).1.headI).category = "business" ∧
    ((["local", "regional", "national", "industry", "global"] :
        List String).contains "business") = false := by
  exact ⟨by decide, by decide⟩

/-- C8 amended: every article produced by `getLocationBasedNews` has
category "business" (with location_type one of local/regional/national),
every article of `getIndustryNews` has category "industry", and every
article of the global branch of `getPersonalizedNews` has category
"global" - so produced categories lie in {business, industry, global},
not in the five-value set claimed. -/
theorem produced_article_categories (up : Upstream) (now : Int)
    (city state country careerField : String) (limit : Nat)
    (p : UserProfile) :
    (∀ a ∈ (getLocationBasedNews up now city state country limit).1,
      a.category = "business" ∧
      (a.location_type = some "local" ∨ a.location_type = some "regional" ∨
       a.location_type = some "national")) ∧
    (∀ a ∈ (getIndustryNews up now careerField limit).1,
      a.category = "industry") ∧
    (∀ a ∈ (getPersonalizedNews up now p).1.global, a.category = "global") := by
  refine ⟨?_, ?_, ?_⟩
  · intro a ha
    have h1 : a ∈
        (fetchNewsFromAPI up now (city ++ " business") limit).1.map
          (processLocationArticle now city state country (city ++ " business")) ++
        ((fetchNewsFromAPI up now (state ++ " economy") limit).1.map
          (processLocationArticle now city state country (state ++ " economy")) ++
        ((fetchNewsFromAPI up now (country ++ " business news") limit).1.map
          (processLocationArticle now city state country
            (country ++ " business news")) ++ [])) :=
      List.mem_of_mem_take ha
    have hgoal : ∀ (query : String) (raw : RawArticle),
        processLocationArticle now city state country query raw = a →
        a.category = "business" ∧
        (a.location_type = some "local" ∨ a.location_type = some "regional" ∨
         a.location_type = some "national") := by
      intro query raw hEq
      subst hEq
      refine ⟨rfl, ?_⟩
      rcases getLocationType_mem query with h | h | h <;>
        simp [processLocationArticle, h]
    simp only [List.append_nil, List.mem_append, List.mem_map] at h1
    rcases h1 with ⟨raw, _, hEq⟩ | ⟨raw, _, hEq⟩ | ⟨raw, _, hEq⟩
    · exact hgoal _ raw hEq
    · exact hgoal _ raw hEq
    · exact hgoal _ raw hEq
  · intro a ha
    have h1 : a ∈
        (((((CAREER_INDUSTRIES careerField).getD [careerField]).take 2).map
          (fun industry =>
            ((fetchNewsFromAPI up now (industry ++ " business news") limit).1.map
              (processIndustryArticle now industry),
             (fetchNewsFromAPI up now (industry ++ " business news") limit).2))).map
          Prod.fst).flatten :=
      List.mem_of_mem_take ha
    rw [List.mem_flatten] at h1
    obtain ⟨L, hL, haL⟩ := h1
    rw [List.mem_map] at hL
    obtain ⟨pr, hpr, rfl⟩ := hL
    rw [List.mem_map] at hpr
    obtain ⟨industry, _, rfl⟩ := hpr
    have haL' : a ∈
        (fetchNewsFromAPI up now (industry ++ " business news") limit).1.map
          (processIndustryArticle now industry) := haL
    obtain ⟨raw, _, hEq⟩ := List.mem_map.mp haL'
    subst hEq
    rfl
  · intro a ha
    have h1 : a ∈ (fetchNewsFromAPI up now "global business economy" 5).1.map
        (processGlobalArticle now) :=
      List.mem_of_mem_take ha
    obtain ⟨raw, _, hEq⟩ := List.mem_map.mp h1
    subst hEq
    rfl

/-- Witness for C8 amended at a concrete upstream returning one minimal
article. -/
theorem produced_article_categories_witness :
    (((getLocationBasedNews (fun _ _ => some [sampleRaw]) 0 "Ottawa" "ON" "CA"
        5).1.headI).category = "business" ∧
      (((getLocationBasedNews (fun _ _ => some [sampleRaw]) 0 "Ottawa" "ON" "CA"
          5).1.headI).location_type = some "local" ∨
       ((getLocationBasedNews (fun _ _ => some [sampleRaw]) 0 "Ottawa" "ON" "CA"
          5).1.headI).location_type = some "regional" ∨
       ((getLocationBasedNews (fun _ _ => some [sampleRaw]) 0 "Ottawa" "ON" "CA"
          5).1.headI).location_type = some "national")) ∧
    ((getIndustryNews (fun _ _ => some [sampleRaw]) 0 "technology"
        5).1.headI).category = "industry" ∧
    ((getPersonalizedNews (fun _ _ => some [sampleRaw]) 0
        ⟨"Ottawa", "ON", "CA", "technology"⟩).1.global.headI).category =
      "global" :=
  ⟨(produced_article_categories (fun _ _ => some [sampleRaw]) 0 "Ottawa" "ON"
      "CA" "technology" 5 ⟨"Ottawa", "ON", "CA", "technology"⟩).1 _ (by decide),
   (produced_article_categories (fun _ _ => some [sampleRaw]) 0 "Ottawa" "ON"
      "CA" "technology" 5 ⟨"Ottawa", "ON", "CA", "technology"⟩).2.1 _ (by decide),
   (produced_article_categories (fun _ _ => some [sampleRaw]) 0 "Ottawa" "ON"
      "CA" "technology" 5 ⟨"Ottawa", "ON", "CA", "technology"⟩).2.2 _ (by decide)⟩

/-- C9: `refreshNewsCache` deletes exactly the cache rows older than 6
hours before call time and leaves the younger rows unchanged (in order);
on a cache with a row created 7 hours ago and one created 1 hour ago,
only the former is deleted. -/
theorem refreshNewsCache_deletes_exactly_old (now : Int)
    (cache : List CacheRow) :
    List.Sublist (refreshNewsCache now cache) cache ∧
    (∀ r ∈ cache, now - 6 * 3600 ≤ r.created_at →
      r ∈ refreshNewsCache now cache) ∧
    (∀ r ∈ refreshNewsCache now cache,
      r ∈ cache ∧ now - 6 * 3600 ≤ r.created_at) ∧
    refreshNewsCache 0
      [{ id := "stale", created_at := -25200 },
       { id := "fresh", created_at := -3600 }] =
      [{ id := "fresh", created_at := -3600 }] := by
  refine ⟨List.filter_sublist _, ?_, ?_, by decide⟩
  · intro r hr hage
    simp only [refreshNewsCache, List.mem_filter]
    refine ⟨hr, ?_⟩
    simp only [Bool.not_eq_true', decide_eq_false_iff_not]
    omega
  · intro r hr
    simp only [refreshNewsCache, List.mem_filter] at hr
    obtain ⟨h1, h2⟩ := hr
    refine ⟨h1, ?_⟩
    simp only [Bool.not_eq_true', decide_eq_false_iff_not] at h2
    omega

/-- Witness for C9: the 1-hour-old row survives the refresh of the
two-row cache. -/
theorem refreshNewsCache_deletes_exactly_old_witness :
    ({ id := "fresh", created_at := -3600 } : CacheRow) ∈
      refreshNewsCache 0
        [{ id := "stale", created_at := -25200 },
         { id := "fresh", created_at := -3600 }] :=
  (refreshNewsCache_deletes_exactly_old 0
      [{ id := "stale", created_at := -25200 },
       { id := "fresh", created_at := -3600 }]).2.1
    { id := "fresh", created_at := -3600 } (by decide) (by decide)

/-- C10: `getLocationBasedNews` fetches each of its three fixed queries
with page size `limit` and truncates the concatenation to `limit * 3`
articles - so it can return more than `limit` articles (witnessed by a
failing upstream with `limit = 2`, which yields 6 articles). -/
theorem getLocationBasedNews_triple_limit (up : Upstream) (now : Int)
    (city state country : String) (limit : Nat) :
    (getLocationBasedNews up now city state country limit).1.length ≤
      limit * 3 ∧
    (getLocationBasedNews up now city state country limit).2 =
      [(city ++ " business", limit), (state ++ " economy", limit),
       (country ++ " business news", limit)] ∧
    2 < (getLocationBasedNews (fun _ _ => none) 0 "a" "b" "c" 2).1.length :=
  ⟨List.length_take_le _ _,
   getLocationBasedNews_log up now city state country limit, by decide⟩

end MiniNews
